import Mathlib

/-!
Verification of the paginated-listing subsystem of a headless WordPress
blog front-end (Next.js + Zustand).  The development shallowly embeds:

* the Zustand pagination store (`usePaginationStore`): state
  `{items, endCursor, hasNextPage, isLoading}` with actions
  `fetchNextPage` and `resetPagination`;
* the client-side mount hydration performed by `BlogPostItems`;
* the GraphQL post fetch clients (`fetchBlogPostsDirect` /
  `fetchBlogPosts`), which normalize `{items, endCursor, hasNextPage}`
  with JavaScript `||` defaults over optional chaining;
* the slug enumerator `fetchAllPostSlugsDirect`, a cursor-threading
  `while (hasNextPage)` loop, embedded with explicit fuel;
* the single item resolver `fetchSinglePostBySlug` from blogServices.

Asynchrony is embedded by passing the outcome of each network call
explicitly: a fetch function is a pure map from the request cursor to
an `Except`/`Option` outcome, and a transport outcome datatype records
whether the call completed, the HTTP status and the parsed body.
-/

namespace Spec2Proof

/-- A page result as returned by a fetch function handed to the store:
the resolved value of
`fetchFunction(cursor) : Promise<{items, endCursor, hasNextPage}>`. -/
structure PageResult (α : Type) where
  items : List α
  endCursor : Option String
  hasNextPage : Bool
deriving Repr, DecidableEq

/-- The Zustand pagination store state: fields `items`, `endCursor`,
`hasNextPage`, `isLoading` of `usePaginationStore`. -/
structure PaginationState (α : Type) where
  items : List α
  endCursor : Option String
  hasNextPage : Bool
  isLoading : Bool
deriving Repr, DecidableEq

/-- The store's creation-time state:
`items: [], endCursor: null, hasNextPage: true, isLoading: false`. -/
def initialPaginationState {α : Type} : PaginationState α :=
  { items := [], endCursor := none, hasNextPage := true, isLoading := false }

/-- `fetchNextPage(fetchFunction)` of the store.  The source:

* `set({ isLoading: true })`;
* calls `fetchFunction(usePaginationStore.getState().endCursor)` —
  unconditionally, there is no guard on `isLoading` or `hasNextPage`;
* on resolve, appends the returned items, replaces `endCursor` and
  `hasNextPage`, clears `isLoading`;
* on reject, logs and only clears `isLoading`.

The second component of the result records the cursors passed to
`fetchFunction`, one entry per network call issued during the
invocation, so that claims about the number of fetches are statable. -/
def fetchNextPage {α : Type} (fetchFunction : Option String → Except Unit (PageResult α))
    (s : PaginationState α) : PaginationState α × List (Option String) :=
  let s1 : PaginationState α := { s with isLoading := true }
  match fetchFunction s1.endCursor with
  | Except.ok r =>
      ({ items := s1.items ++ r.items
       , endCursor := r.endCursor
       , hasNextPage := r.hasNextPage
       , isLoading := false }, [s1.endCursor])
  | Except.error _ =>
      ({ s1 with isLoading := false }, [s1.endCursor])

/-- `resetPagination()` of the store: unconditionally
`set({items: [], endCursor: null, hasNextPage: true, isLoading: false})`. -/
def resetPagination {α : Type} (_s : PaginationState α) : PaginationState α :=
  { items := [], endCursor := none, hasNextPage := true, isLoading := false }

/-- The `useEffect` hydration in `BlogPostItems`: when
`initialPosts.length > 0` it overwrites the store with
`{items: initialPosts, endCursor: null, hasNextPage: true}` (leaving
`isLoading` untouched); otherwise it does nothing. -/
def blogPostItemsHydrate {α : Type} (initialPosts : List α)
    (s : PaginationState α) : PaginationState α :=
  if initialPosts.length > 0 then
    { s with items := initialPosts, endCursor := none, hasNextPage := true }
  else s

/-- A concrete store state that is mid-fetch (`isLoading = true`),
used to exercise re-entrant invocation. -/
def loadingState : PaginationState String :=
  { items := ["A", "B", "C"], endCursor := some "c1", hasNextPage := true
  , isLoading := true }

/-- A concrete fetch function resolving with a fixed second page. -/
def stubFetch : Option String → Except Unit (PageResult String) :=
  fun _ => Except.ok { items := ["D", "E"], endCursor := some "c2", hasNextPage := false }

/-- The spec's seed state `items=[A,B,C], endCursor="c1", hasNextPage=true`. -/
def seededState : PaginationState String :=
  { items := ["A", "B", "C"], endCursor := some "c1", hasNextPage := true
  , isLoading := false }

/-- A concrete fetch function that rejects whatever the cursor. -/
def failingFetch : Option String → Except Unit (PageResult String) :=
  fun _ => Except.error ()

/-- C1 counterexample: from a state with `isLoading = true`, invoking
`fetchNextPage` still issues a network call (it calls the fetch
function with the current cursor); the re-entrant call is not ignored. -/
theorem fetchNextPage_whileLoading_fetches :
    loadingState.isLoading = true ∧
      (fetchNextPage stubFetch loadingState).2 = [some "c1"] :=
  ⟨rfl, rfl⟩

/-- C1 (amended): `fetchNextPage` issues exactly one network call per
invocation, with the pre-call `endCursor`, regardless of `isLoading`
and `hasNextPage`: the store has no re-entrancy guard, so a call made
while `isLoading = true` performs a second concurrent fetch rather
than being ignored. -/
theorem fetchNextPage_always_one_fetch {α : Type}
    (fetchFunction : Option String → Except Unit (PageResult α))
    (s : PaginationState α) :
    (fetchNextPage fetchFunction s).2 = [s.endCursor] := by
  cases h : fetchFunction s.endCursor <;> simp [fetchNextPage, h]

/-- C2: when the fetch function resolves with a page, `fetchNextPage`
appends the returned items in order, replaces `endCursor` and
`hasNextPage` with the returned values, and clears `isLoading`. -/
theorem fetchNextPage_success {α : Type}
    (fetchFunction : Option String → Except Unit (PageResult α))
    (s : PaginationState α) (r : PageResult α)
    (h : fetchFunction s.endCursor = Except.ok r) :
    (fetchNextPage fetchFunction s).1 =
      { items := s.items ++ r.items
      , endCursor := r.endCursor
      , hasNextPage := r.hasNextPage
      , isLoading := false } := by
  unfold fetchNextPage
  simp [h]

/-- C2 witness: the spec scenario — from
`{items=[A,B,C], endCursor="c1", hasNextPage=true}` with a fetch
returning `{items:[D,E], endCursor:"c2", hasNextPage:false}`,
the result is `{items=[A,B,C,D,E], endCursor="c2", hasNextPage=false,
isLoading=false}`. -/
theorem fetchNextPage_success_witness :
    (fetchNextPage stubFetch seededState).1 =
      { items := ["A", "B", "C", "D", "E"], endCursor := some "c2"
      , hasNextPage := false, isLoading := false } := by
  have h := fetchNextPage_success stubFetch seededState
    { items := ["D", "E"], endCursor := some "c2", hasNextPage := false } rfl
  simpa using h

/-- C3: when the fetch function rejects, `fetchNextPage` leaves
`items`, `endCursor` and `hasNextPage` exactly as before the call and
clears `isLoading`; the store carries no error field, so a later call
can retry. -/
theorem fetchNextPage_failure {α : Type}
    (fetchFunction : Option String → Except Unit (PageResult α))
    (s : PaginationState α) (e : Unit)
    (h : fetchFunction s.endCursor = Except.error e) :
    (fetchNextPage fetchFunction s).1 =
      { items := s.items, endCursor := s.endCursor
      , hasNextPage := s.hasNextPage, isLoading := false } := by
  unfold fetchNextPage
  simp [h]

/-- C3 witness: a failing fetch from the seeded state leaves the three
data fields unchanged and `isLoading = false`. -/
theorem fetchNextPage_failure_witness :
    (fetchNextPage failingFetch seededState).1 =
      { items := ["A", "B", "C"], endCursor := some "c1"
      , hasNextPage := true, isLoading := false } := by
  have h := fetchNextPage_failure failingFetch seededState () rfl
  simpa using h

/-- C9: `resetPagination` yields exactly
`{items: [], endCursor: null, hasNextPage: true, isLoading: false}`
from every prior state. -/
theorem resetPagination_spec {α : Type} (s : PaginationState α) :
    resetPagination s = initialPaginationState := rfl

/-- C10: on mount, when `initialPosts` is non-empty the hydration
overwrites `items` with `initialPosts`, forces `endCursor` to `null`
and `hasNextPage` to `true` (discarding any server-seeded cursor and
flag) while leaving `isLoading` unchanged; when `initialPosts` is
empty the state is untouched. -/
theorem blogPostItemsHydrate_spec {α : Type} (initialPosts : List α)
    (s : PaginationState α) :
    blogPostItemsHydrate initialPosts s =
      if initialPosts.isEmpty then s
      else { s with items := initialPosts, endCursor := none, hasNextPage := true } := by
  unfold blogPostItemsHydrate
  cases initialPosts <;> simp

/-! ## Post Fetch Client (`fetchBlogPostsDirect` / `fetchBlogPosts`) -/

/-- A blog post as selected by the `GetBlogPosts` query. -/
structure BlogPost where
  id : String
  title : String
  slug : String
  date : String
deriving Repr, DecidableEq

/-- The `pageInfo` object of a parsed GraphQL body; each field may be
absent (JavaScript `undefined`), hence `Option`. -/
structure PageInfoJson where
  hasNextPage : Option Bool
  endCursor : Option String
deriving Repr, DecidableEq

/-- The `posts` connection of a parsed GraphQL body. -/
structure PostsConnJson where
  nodes : Option (List BlogPost)
  pageInfo : Option PageInfoJson
deriving Repr, DecidableEq

/-- The `data` object of a parsed GraphQL body. -/
structure DataJson where
  posts : Option PostsConnJson
deriving Repr, DecidableEq

/-- A parsed GraphQL response body `{data, errors}`; `errors` is the
optional array of GraphQL error messages. -/
structure GraphQLBody where
  data : Option DataJson
  errors : Option (List String)
deriving Repr, DecidableEq

/-- The outcome of one HTTP transport call: `failed` when the `fetch`
promise rejects (the call does not complete); otherwise the response's
`ok` status and its body — `none` when `response.json()` fails to
parse, `some b` when it parses to `b`. -/
inductive Transport (β : Type) where
  | failed : Transport β
  | resp (ok : Bool) (body : Option β) : Transport β
deriving Repr, DecidableEq

/-- The errors `fetchBlogPostsDirect` can throw: the propagated network
rejection, the explicit `Failed to fetch blog posts` throw on a
non-success status, and a `response.json()` parse rejection. -/
inductive FetchErr where
  | network : FetchErr
  | httpStatus : FetchErr
  | jsonParse : FetchErr
deriving Repr, DecidableEq

/-- The normalized shape returned by the client. -/
structure BlogPostsResponse where
  posts : List BlogPost
  hasNextPage : Bool
  endCursor : Option String
deriving Repr, DecidableEq

/-- JavaScript `x || null` on a string-or-undefined value: the empty
string is falsy and collapses to `null`. -/
def jsOrNullStr (c : Option String) : Option String :=
  match c with
  | some s => if s = "" then none else some s
  | none => none

/-- `fetchBlogPostsDirect(first, after)` of `buildServices.ts` (the
body of `fetchBlogPosts` in the API-route service is identical): after
`if (!response.ok) throw`, the parsed body is normalized with optional
chaining and `||` defaults —
`posts: result?.data?.posts?.nodes || []`,
`hasNextPage: ...pageInfo?.hasNextPage || false`,
`endCursor: ...pageInfo?.endCursor || null`.
The `errors` field of the body is never inspected.  `first`/`after`
only shape the request, whose outcome is the `t` argument. -/
def fetchBlogPostsDirect (first : Nat) (after : Option String)
    (t : Transport GraphQLBody) : Except FetchErr BlogPostsResponse :=
  match t with
  | Transport.failed => Except.error FetchErr.network
  | Transport.resp ok body =>
    if !ok then Except.error FetchErr.httpStatus
    else
      match body with
      | none => Except.error FetchErr.jsonParse
      | some result =>
          Except.ok
            { posts := ((result.data.bind DataJson.posts).bind PostsConnJson.nodes).getD []
            , hasNextPage :=
                (((result.data.bind DataJson.posts).bind PostsConnJson.pageInfo).bind
                  PageInfoJson.hasNextPage).getD false
            , endCursor :=
                jsOrNullStr (((result.data.bind DataJson.posts).bind
                  PostsConnJson.pageInfo).bind PageInfoJson.endCursor) }

/-- C4 counterexample: a success-status response whose body has no
`data` and a non-empty GraphQL `errors` array is not treated as a
failure: the client returns the normalized default
`{posts: [], hasNextPage: false, endCursor: null}` — neither a
`MalformedResponse`-style failure for the missing `items`/pagination
fields nor a failure for the reported GraphQL errors. -/
theorem fetchBlogPostsDirect_errors_ignored :
    fetchBlogPostsDirect 6 none
        (Transport.resp true (some { data := none, errors := some ["boom"] })) =
      Except.ok { posts := [], hasNextPage := false, endCursor := none } := rfl

/-- C4 (amended): `fetchBlogPostsDirect` fails exactly when the
transport call does not complete, the status is non-success, or the
body is not parsable JSON; every parsed body — including one with
missing `items`/pagination fields or a non-empty GraphQL `errors`
array — yields a normalized success, with absent fields defaulted to
`[]`/`false`/`null`. -/
theorem fetchBlogPostsDirect_error_cases (first : Nat) (after : Option String)
    (t : Transport GraphQLBody) :
    ((∃ e, fetchBlogPostsDirect first after t = Except.error e) ↔
      t = Transport.failed ∨ (∃ b, t = Transport.resp false b) ∨
        t = Transport.resp true none) ∧
    (∀ result : GraphQLBody,
      fetchBlogPostsDirect first after (Transport.resp true (some result)) =
        Except.ok
          { posts := ((result.data.bind DataJson.posts).bind PostsConnJson.nodes).getD []
          , hasNextPage :=
              (((result.data.bind DataJson.posts).bind PostsConnJson.pageInfo).bind
                PageInfoJson.hasNextPage).getD false
          , endCursor :=
              jsOrNullStr (((result.data.bind DataJson.posts).bind
                PostsConnJson.pageInfo).bind PageInfoJson.endCursor) }) := by
  constructor
  · constructor
    · intro ⟨e, he⟩
      match t with
      | Transport.failed => exact Or.inl rfl
      | Transport.resp false b => exact Or.inr (Or.inl ⟨b, rfl⟩)
      | Transport.resp true none => exact Or.inr (Or.inr rfl)
      | Transport.resp true (some result) =>
          simp [fetchBlogPostsDirect] at he
    · rintro (rfl | ⟨b, rfl⟩ | rfl)
      · exact ⟨FetchErr.network, rfl⟩
      · exact ⟨FetchErr.httpStatus, rfl⟩
      · exact ⟨FetchErr.jsonParse, rfl⟩
  · intro result
    rfl

/-- C4 witness: a failed transport call is among the error cases — the
client fails there (with the propagated network rejection). -/
theorem fetchBlogPostsDirect_error_cases_witness :
    ∃ e, fetchBlogPostsDirect 6 none Transport.failed = Except.error e :=
  (fetchBlogPostsDirect_error_cases 6 none Transport.failed).1.mpr (Or.inl rfl)

/-! ## Slug Enumerator (`fetchAllPostSlugsDirect`) -/

/-- `pageInfo` of the `GetAllPostSlugs` query, per the declared
`PostSlugResponse` interface. -/
structure SlugPageInfo where
  hasNextPage : Bool
  endCursor : Option String
deriving Repr, DecidableEq

/-- The `posts` connection of the slug query: the slugs of the `nodes`
array and the page info. -/
structure SlugPosts where
  nodes : List String
  pageInfo : SlugPageInfo
deriving Repr, DecidableEq

/-- The `data` object of the slug query response. -/
structure SlugData where
  posts : SlugPosts
deriving Repr, DecidableEq

/-- A slug-query response body `{data, errors?}` per the
`PostSlugResponse` interface; `errors` is present iff the upstream
reported GraphQL errors (a present array of any length is truthy). -/
structure PostSlugResponse where
  data : SlugData
  errors : Option (List String)
deriving Repr, DecidableEq

/-- Errors the enumeration loop can throw: a propagated transport or
parse rejection of `fetch(...).then(res => res.json())`, or the
explicit `Failed to fetch post slugs` throw when `response.errors` is
truthy. -/
inductive EnumErr where
  | transport : EnumErr
  | graphqlErrors : EnumErr
deriving Repr, DecidableEq

/-- One `while (hasNextPage)` iteration cycle of
`fetchAllPostSlugsDirect`, with explicit fuel bounding the number of
iterations (the source has no such bound; running out of fuel, result
`none`, models the loop still running).  Per iteration: issue the
request with the current cursor (`up endCursor`, `none` = rejected
transport/parse), throw if `response.errors` is truthy, append the
batch of slugs, then continue with the new cursor iff the page's
`hasNextPage` is true. -/
def fetchAllPostSlugsLoop (up : Option String → Option PostSlugResponse) :
    Nat → Option String → List String → Option (Except EnumErr (List String))
  | 0, _, _ => none
  | fuel + 1, endCursor, slugs =>
    match up endCursor with
    | none => some (Except.error EnumErr.transport)
    | some response =>
      if response.errors.isSome then some (Except.error EnumErr.graphqlErrors)
      else
        let slugs2 := slugs ++ response.data.posts.nodes
        if response.data.posts.pageInfo.hasNextPage then
          fetchAllPostSlugsLoop up fuel response.data.posts.pageInfo.endCursor slugs2
        else some (Except.ok slugs2)

/-- `fetchAllPostSlugsDirect()`: `slugs = []`, `hasNextPage = true`,
`endCursor = null`, then the `while (hasNextPage)` loop. -/
def fetchAllPostSlugsDirect (up : Option String → Option PostSlugResponse)
    (fuel : Nat) : Option (Except EnumErr (List String)) :=
  fetchAllPostSlugsLoop up fuel none []

/-- `Realizes up c ps`: starting from cursor `c`, the upstream serves
exactly the error-free pages `ps` in order, each page but the last
reporting `hasNextPage = true` with its `endCursor` naming the next
request, and the last reporting `hasNextPage = false`. -/
inductive Realizes (up : Option String → Option PostSlugResponse) :
    Option String → List SlugPosts → Prop where
  | last (c : Option String) (p : SlugPosts) :
      up c = some { data := { posts := p }, errors := none } →
      p.pageInfo.hasNextPage = false → Realizes up c [p]
  | cons (c : Option String) (p : SlugPosts) (ps : List SlugPosts) :
      up c = some { data := { posts := p }, errors := none } →
      p.pageInfo.hasNextPage = true →
      Realizes up p.pageInfo.endCursor ps → Realizes up c (p :: ps)

/-- `FailsAfter up c ps`: starting from cursor `c`, the upstream
serves the error-free pages `ps` (each with `hasNextPage = true`) and
then fails at the next request — either the transport/parse rejects or
the response carries an `errors` array. -/
inductive FailsAfter (up : Option String → Option PostSlugResponse) :
    Option String → List SlugPosts → Prop where
  | here (c : Option String) :
      (up c = none ∨ ∃ resp, up c = some resp ∧ resp.errors.isSome = true) →
      FailsAfter up c []
  | step (c : Option String) (p : SlugPosts) (ps : List SlugPosts) :
      up c = some { data := { posts := p }, errors := none } →
      p.pageInfo.hasNextPage = true →
      FailsAfter up p.pageInfo.endCursor ps → FailsAfter up c (p :: ps)

/-- Loop invariant for a realized run: with enough fuel, the loop
returns the accumulator followed by the concatenation of the served
pages' slugs, in page order. -/
theorem fetchAllPostSlugsLoop_realizes
    (up : Option String → Option PostSlugResponse) (ps : List SlugPosts)
    (c : Option String) (h : Realizes up c ps) :
    ∀ (acc : List String) (fuel : Nat), ps.length ≤ fuel →
      fetchAllPostSlugsLoop up fuel c acc =
        some (Except.ok (acc ++ (ps.map SlugPosts.nodes).flatten)) := by
  induction h with
  | last c p hup hlast =>
      intro acc fuel hfuel
      match fuel, hfuel with
      | fuel + 1, _ =>
        simp [fetchAllPostSlugsLoop, hup, hlast]
  | cons c p ps hup hnext _ ih =>
      intro acc fuel hfuel
      match fuel, hfuel with
      | fuel + 1, hfuel =>
        have hlen : ps.length ≤ fuel := Nat.le_of_succ_le_succ (by simpa using hfuel)
        simp [fetchAllPostSlugsLoop, hup, hnext, ih _ fuel hlen]

/-- C5: against an upstream realizing finitely many pages from the
null cursor, the enumeration (given fuel at least the page count)
returns exactly the concatenation of the pages' slugs in page order,
threading each page's `endCursor` into the next request. -/
theorem fetchAllPostSlugsDirect_concat
    (up : Option String → Option PostSlugResponse) (ps : List SlugPosts)
    (fuel : Nat) (h : Realizes up none ps) (hfuel : ps.length ≤ fuel) :
    fetchAllPostSlugsDirect up fuel =
      some (Except.ok ((ps.map SlugPosts.nodes).flatten)) := by
  simpa [fetchAllPostSlugsDirect] using
    fetchAllPostSlugsLoop_realizes up ps none h [] fuel hfuel

/-- The spec's mocked 3-page upstream: sizes 2, 2, 1; cursors
`null → "p1" → "p2" → (none)`. -/
def threePageUp : Option String → Option PostSlugResponse :=
  fun c =>
    match c with
    | none => some ⟨⟨⟨["s1", "s2"], ⟨true, some "p1"⟩⟩⟩, none⟩
    | some "p1" => some ⟨⟨⟨["s3", "s4"], ⟨true, some "p2"⟩⟩⟩, none⟩
    | some "p2" => some ⟨⟨⟨["s5"], ⟨false, none⟩⟩⟩, none⟩
    | some _ => none

/-- The three pages served by `threePageUp`. -/
def threePages : List SlugPosts :=
  [⟨["s1", "s2"], ⟨true, some "p1"⟩⟩, ⟨["s3", "s4"], ⟨true, some "p2"⟩⟩,
    ⟨["s5"], ⟨false, none⟩⟩]

/-- `threePageUp` realizes `threePages` from the null cursor. -/
theorem threePageUp_realizes : Realizes threePageUp none threePages := by
  refine Realizes.cons _ _ _ (by rfl) rfl ?_
  refine Realizes.cons _ _ _ (by rfl) rfl ?_
  exact Realizes.last _ _ (by rfl) rfl

/-- C5 witness: against the mocked 3-page upstream (sizes 2, 2, 1) the
enumeration returns exactly the 5 slugs in page order. -/
theorem fetchAllPostSlugsDirect_concat_witness :
    fetchAllPostSlugsDirect threePageUp 3 =
      some (Except.ok ["s1", "s2", "s3", "s4", "s5"]) := by
  have h := fetchAllPostSlugsDirect_concat threePageUp threePages 3
    threePageUp_realizes (by simp [threePages])
  simpa [threePages] using h

/-- An upstream that always claims `hasNextPage = true`: a source
violating the cursor contract. -/
def relentlessUp : Option String → Option PostSlugResponse :=
  fun _ => some ⟨⟨⟨[], ⟨true, some "again"⟩⟩⟩, none⟩

/-- Against `relentlessUp` the loop never produces a result, whatever
the fuel, cursor and accumulator. -/
theorem fetchAllPostSlugsLoop_relentless (fuel : Nat) :
    ∀ (c : Option String) (acc : List String),
      fetchAllPostSlugsLoop relentlessUp fuel c acc = none := by
  induction fuel with
  | zero => intro c acc; rfl
  | succ fuel ih =>
      intro c acc
      simp [fetchAllPostSlugsLoop, relentlessUp, ih]

/-- C6: the enumeration terminates for every upstream that reports
`hasNextPage = false` after finitely many pages (fuel equal to the
page count already suffices), and the loop has no iteration cap: an
upstream that claims `hasNextPage = true` forever exhausts any amount
of fuel without producing a result. -/
theorem fetchAllPostSlugsDirect_termination :
    (∀ (up : Option String → Option PostSlugResponse) (ps : List SlugPosts),
      Realizes up none ps → (fetchAllPostSlugsDirect up ps.length).isSome = true) ∧
    (∀ fuel : Nat, fetchAllPostSlugsDirect relentlessUp fuel = none) := by
  constructor
  · intro up ps h
    rw [fetchAllPostSlugsDirect_concat up ps ps.length h (Nat.le_refl _)]
    rfl
  · intro fuel
    exact fetchAllPostSlugsLoop_relentless fuel none []

/-- C6 witness: the 3-page upstream is enumerated to completion with
fuel 3. -/
theorem fetchAllPostSlugsDirect_termination_witness :
    (fetchAllPostSlugsDirect threePageUp 3).isSome = true := by
  have h := fetchAllPostSlugsDirect_termination.1 threePageUp threePages
    threePageUp_realizes
  simpa [threePages] using h

/-- Loop invariant for a failing run: once the upstream fails, the
loop returns the failure, discarding every slug accumulated so far. -/
theorem fetchAllPostSlugsLoop_failsAfter
    (up : Option String → Option PostSlugResponse) (ps : List SlugPosts)
    (c : Option String) (h : FailsAfter up c ps) :
    ∀ (acc : List String) (fuel : Nat), ps.length < fuel →
      ∃ e, fetchAllPostSlugsLoop up fuel c acc = some (Except.error e) := by
  induction h with
  | here c hfail =>
      intro acc fuel hfuel
      match fuel, hfuel with
      | fuel + 1, _ =>
        rcases hfail with hnone | ⟨resp, hresp, herr⟩
        · exact ⟨EnumErr.transport, by simp [fetchAllPostSlugsLoop, hnone]⟩
        · exact ⟨EnumErr.graphqlErrors, by simp [fetchAllPostSlugsLoop, hresp, herr]⟩
  | step c p ps hup hnext _ ih =>
      intro acc fuel hfuel
      match fuel, hfuel with
      | fuel + 1, hfuel =>
        have hlen : ps.length < fuel := Nat.lt_of_succ_lt_succ (by simpa using hfuel)
        obtain ⟨e, he⟩ := ih (acc ++ p.nodes) fuel hlen
        exact ⟨e, by simp [fetchAllPostSlugsLoop, hup, hnext, he]⟩

/-- C7: if any page request fails — the transport rejects or the
response carries GraphQL errors — the enumeration aborts at that first
failing page and returns only the failure; no partial slug list
accumulated from earlier pages is returned. -/
theorem fetchAllPostSlugsDirect_abortsOnFailure
    (up : Option String → Option PostSlugResponse) (ps : List SlugPosts)
    (fuel : Nat) (h : FailsAfter up none ps) (hfuel : ps.length < fuel) :
    ∃ e, fetchAllPostSlugsDirect up fuel = some (Except.error e) :=
  fetchAllPostSlugsLoop_failsAfter up ps none h [] fuel hfuel

/-- An upstream serving one good page of two slugs and then reporting
GraphQL errors at cursor `"p1"`. -/
def failSecondUp : Option String → Option PostSlugResponse :=
  fun c =>
    match c with
    | none => some ⟨⟨⟨["s1", "s2"], ⟨true, some "p1"⟩⟩⟩, none⟩
    | some _ => some ⟨⟨⟨[], ⟨false, none⟩⟩⟩, some ["upstream reported failure"]⟩

/-- C7 witness: with a first good page and a failing second request,
the enumeration yields a failure (and in particular never the partial
list `[s1, s2]`). -/
theorem fetchAllPostSlugsDirect_abortsOnFailure_witness :
    ∃ e, fetchAllPostSlugsDirect failSecondUp 5 = some (Except.error e) :=
  fetchAllPostSlugsDirect_abortsOnFailure failSecondUp
    [ { nodes := ["s1", "s2"]
      , pageInfo := { hasNextPage := true, endCursor := some "p1" } } ] 5
    (FailsAfter.step _ _ _ (by rfl) rfl
      (FailsAfter.here _ (Or.inr
        ⟨⟨⟨⟨[], ⟨false, none⟩⟩⟩, some ["upstream reported failure"]⟩, by rfl, rfl⟩)))
    (by simp)

/-! ## Single Item Resolver (`fetchSinglePostBySlug` of blogServices) -/

/-- The parsed JSON of the post-by-slug endpoint when it is an object:
the fields the resolver inspects (`id`, for the `!result.id` check)
and carries.  `id` is `Option` because the field may be absent. -/
structure SinglePostJson where
  id : Option String
  title : String
  slug : String
  content : String
deriving Repr, DecidableEq

/-- The rejections `fetchSinglePostBySlug` can propagate: the `fetch`
promise rejecting, or `response.json()` failing to parse (the function
has no try/catch, and its `throw` on a non-success status is commented
out). -/
inductive ResolveErr where
  | network : ResolveErr
  | jsonParse : ResolveErr
deriving Repr, DecidableEq

/-- JavaScript truthiness of a string-or-undefined value: absent and
the empty string are falsy. -/
def jsTruthyStr (s : Option String) : Bool :=
  match s with
  | some v => !(v == "")
  | none => false

/-- `fetchSinglePostBySlug(slug)` of blogServices.  The source:
`if (!response.ok) { console.log(...); return null; }` (the throw is
commented out), then `result = await response.json()`, then
`if (!result || !result.id) return null`, else `return result`.
The transport body is `Option (Option SinglePostJson)`: outer `none`
when `response.json()` rejects, `some none` when the body parses to
JSON `null` (a falsy `result`), `some (some p)` when it parses to an
object.  `slug` only shapes the request URL. -/
def fetchSinglePostBySlug (slug : String)
    (t : Transport (Option SinglePostJson)) :
    Except ResolveErr (Option SinglePostJson) :=
  match t with
  | Transport.failed => Except.error ResolveErr.network
  | Transport.resp ok body =>
    if !ok then Except.ok none
    else
      match body with
      | none => Except.error ResolveErr.jsonParse
      | some none => Except.ok none
      | some (some result) =>
          if jsTruthyStr result.id then Except.ok (some result)
          else Except.ok none

/-- C8 counterexample: a transport response with a non-success status
does not fail with an `UpstreamUnavailable`-style error — the resolver
returns `null`, the same value it returns for a missing post, so the
caller renders not-found instead of observing a failure. -/
theorem fetchSinglePostBySlug_httpFailure_yields_null :
    fetchSinglePostBySlug "missing-slug" (Transport.resp false none) =
      Except.ok none :=
  rfl

/-- C8 (amended): the resolver rejects only when the fetch itself
rejects (`network`) or the body is unparsable (`jsonParse`); a
non-success transport status yields `null` — indistinguishable from
not-found — rather than a failure; and an upstream reporting no
matching post (null body, or an object with a missing/falsy `id`)
yields not-found as a normal outcome, while a post with a truthy `id`
is returned as-is. -/
theorem fetchSinglePostBySlug_cases (slug : String) :
    (fetchSinglePostBySlug slug Transport.failed =
        Except.error ResolveErr.network) ∧
    (∀ body : Option (Option SinglePostJson),
      fetchSinglePostBySlug slug (Transport.resp false body) = Except.ok none) ∧
    (fetchSinglePostBySlug slug (Transport.resp true none) =
        Except.error ResolveErr.jsonParse) ∧
    (fetchSinglePostBySlug slug (Transport.resp true (some none)) =
        Except.ok none) ∧
    (∀ p : SinglePostJson, jsTruthyStr p.id = false →
      fetchSinglePostBySlug slug (Transport.resp true (some (some p))) =
        Except.ok none) ∧
    (∀ p : SinglePostJson, jsTruthyStr p.id = true →
      fetchSinglePostBySlug slug (Transport.resp true (some (some p))) =
        Except.ok (some p)) := by
  refine ⟨rfl, fun body => rfl, rfl, rfl, fun p hp => ?_, fun p hp => ?_⟩
  · simp [fetchSinglePostBySlug, hp]
  · simp [fetchSinglePostBySlug, hp]

/-- C8 witness: `resolveBySlug("missing-slug")` against an upstream
returning a null post yields not-found (`null`), not an error. -/
theorem fetchSinglePostBySlug_cases_witness :
    fetchSinglePostBySlug "missing-slug" (Transport.resp true (some none)) =
      Except.ok none :=
  (fetchSinglePostBySlug_cases "missing-slug").2.2.2.1

end Spec2Proof
